import Mathlib

/-!
Shallow embedding of the warbler Flask application (`app.py`) and the parts
of its data model that the route handlers use. Users, messages, follow edges
and like edges are relational rows modelled as lists; the session is the
optional current-user id stored under `CURR_USER_KEY`. Each route handler of
`app.py` becomes a function from an application state (plus the request's
validated-form data) to a new state, an HTTP response and the flashed
messages produced during the request.
-/

namespace Warbler

/-- A row of the `users` table: id (primary key), unique username, unique
email. Profile fields not used by any handler studied here are omitted. -/
structure User where
  id : Nat
  username : String
  email : String
deriving Repr, DecidableEq

/-- A row of the `messages` table: id, owning user's id, text, timestamp. -/
structure Message where
  id : Nat
  userId : Nat
  text : String
  timestamp : Nat
deriving Repr, DecidableEq

/-- The committed database: users, messages, follow edges
`(follower_id, followed_id)` and like edges `(user_id, message_id)`. -/
structure DBState where
  users : List User
  messages : List Message
  follows : List (Nat × Nat)
  likes : List (Nat × Nat)
deriving Repr, DecidableEq

/-- Application state seen by one request: the database plus the session's
current-user id (`session[CURR_USER_KEY]`, absent = `none`). -/
structure AppState where
  db : DBState
  session : Option Nat
deriving Repr, DecidableEq

/-- The response a handler returns: a rendered template, a redirect, a 404
from `get_or_404`, or an uncaught exception propagating out of the handler. -/
inductive Response where
  | render (tpl : String)
  | redirect (url : String)
  | notFound
  | raised (exc : String)
deriving Repr, DecidableEq

/-- Result of running one request: the state afterwards, the response, and
the `flash` messages (text, category) emitted while handling it. -/
structure HandlerResult where
  state : AppState
  response : Response
  flashes : List (String × String)
deriving Repr, DecidableEq

/-- `User.query.get(uid)`: the row of `users` with the given primary key. -/
def getUser (db : DBState) (uid : Nat) : Option User :=
  db.users.find? (fun u => u.id == uid)

/-- `Message.query.get(mid)`: the row of `messages` with the given id. -/
def getMessage (db : DBState) (mid : Nat) : Option Message :=
  db.messages.find? (fun m => m.id == mid)

/-- `g.user` as set by the `before_request` hook: resolve the session's
current-user key against the users table. -/
def currentUser (s : AppState) : Option User :=
  match s.session with
  | none => none
  | some uid => getUser s.db uid

/-- `do_login(user)`: store the user's id in the session. -/
def do_login (s : AppState) (uid : Nat) : AppState :=
  { s with session := some uid }

/-- `do_logout()`: remove the current-user key from the session. -/
def do_logout (s : AppState) : AppState :=
  { s with session := none }

/-- The flash emitted by every authorization guard in `app.py`. -/
def accessUnauthorizedFlash : String × String := ("Access unauthorized.", "danger")

/-- The data of a submitted `UserAddForm`: whether `validate_on_submit`
succeeded (always false on GET) and the submitted fields. -/
structure SignupForm where
  valid : Bool
  username : String
  email : String
deriving Repr, DecidableEq

/-- Modelled from the spec: `User.signup` and the uniqueness constraints on
`users.username` / `users.email` live in `models.py`, which is not among the
sources; per the spec, signup "rejects duplicate username/email
(uniqueness-violation error)". This models the pending insert together with
`db.session.commit()` as one step: it fails with an `IntegrityError` exactly
when the username or the email duplicates an existing user's, leaving the
database unchanged, and otherwise appends the new row (`newId` standing for
the autogenerated primary key). -/
def signupCommit (db : DBState) (newId : Nat) (username email : String) :
    Except String DBState :=
  if db.users.any (fun u => u.username == username || u.email == email) then
    .error "IntegrityError"
  else
    .ok { db with users := db.users ++ [⟨newId, username, email⟩] }

/-- `GET/POST /signup`: log out first, then on a valid submission try to
create the user and log them in; on an `IntegrityError` flash and re-render
the form; on an invalid form (or GET) just render the form. -/
def signup (s : AppState) (form : SignupForm) (newId : Nat) : HandlerResult :=
  let s1 := do_logout s
  if form.valid then
    match signupCommit s1.db newId form.username form.email with
    | .error _ =>
        ⟨s1, .render "users/signup.html", [("Username already taken", "danger")]⟩
    | .ok db1 =>
        ⟨do_login { s1 with db := db1 } newId, .redirect "/", []⟩
  else
    ⟨s1, .render "users/signup.html", []⟩

/-- `GET /users/:id`: guard, then `get_or_404` the user and render. -/
def show_user (s : AppState) (user_id : Nat) : HandlerResult :=
  match currentUser s with
  | none => ⟨s, .redirect "/", [accessUnauthorizedFlash]⟩
  | some _ =>
    match getUser s.db user_id with
    | none => ⟨s, .notFound, []⟩
    | some _ => ⟨s, .render "users/show.html", []⟩

/-- `GET /users/:id/likes`: guard, then fetch the user with a plain
`User.query.get` (not `get_or_404`) and render the template regardless of
whether the user exists. -/
def show_favorite_warbles (s : AppState) (user_id : Nat) : HandlerResult :=
  match currentUser s with
  | none => ⟨s, .redirect "/", [accessUnauthorizedFlash]⟩
  | some _ =>
    let _user := getUser s.db user_id
    ⟨s, .render "users/liked_warbles.html", []⟩

/-- `POST /users/follow/:id`: guard (login + CSRF), `get_or_404` the target,
reject a self-follow with a flash, otherwise append the follow edge and
commit. There is no membership check before the append. -/
def start_following (s : AppState) (csrfValid : Bool) (follow_id : Nat) :
    HandlerResult :=
  match currentUser s with
  | none => ⟨s, .redirect "/", [accessUnauthorizedFlash]⟩
  | some user =>
    if csrfValid = false then
      ⟨s, .redirect "/", [accessUnauthorizedFlash]⟩
    else
      match getUser s.db follow_id with
      | none => ⟨s, .notFound, []⟩
      | some followed =>
        if followed = user then
          ⟨s, .redirect "/users", [("You can not follow yourself.", "danger")]⟩
        else
          ⟨{ s with db :=
                { s.db with follows := s.db.follows ++ [(user.id, followed.id)] } },
            .redirect ("/users/" ++ toString user.id ++ "/following"), []⟩

/-- `POST /users/stop-following/:id`: guard, `get_or_404` the target, then
`g.user.following.remove(followed_user)`. The underlying list removal raises
a `ValueError` when the edge is not present; when it is, the first matching
edge is removed and committed. -/
def stop_following (s : AppState) (csrfValid : Bool) (follow_id : Nat) :
    HandlerResult :=
  match currentUser s with
  | none => ⟨s, .redirect "/", [accessUnauthorizedFlash]⟩
  | some user =>
    if csrfValid = false then
      ⟨s, .redirect "/", [accessUnauthorizedFlash]⟩
    else
      match getUser s.db follow_id with
      | none => ⟨s, .notFound, []⟩
      | some followed =>
        if (user.id, followed.id) ∈ s.db.follows then
          ⟨{ s with db :=
                { s.db with follows := s.db.follows.erase (user.id, followed.id) } },
            .redirect ("/users/" ++ toString user.id ++ "/following"), []⟩
        else
          ⟨s, .raised "ValueError", []⟩

/-- Modelled from the spec: the delete-cascade configuration lives in
`models.py`, which is not among the sources (the handler's comment says
"cascade kicks in here ... must have delete cascade in models though!").
Per the spec, "deleting a User cascades to delete owned Messages and
associated Follow/Like edges"; like edges of a cascade-deleted message
disappear with it. -/
def deleteUserCascade (db : DBState) (uid : Nat) : DBState :=
  { users := db.users.filter (fun u => u.id ≠ uid),
    messages := db.messages.filter (fun m => m.userId ≠ uid),
    follows := db.follows.filter (fun e => e.1 ≠ uid ∧ e.2 ≠ uid),
    likes := db.likes.filter (fun e =>
      e.1 ≠ uid ∧ db.messages.all (fun m => m.id ≠ e.2 ∨ m.userId ≠ uid)) }

/-- `POST /users/delete`: guard, bulk-delete the current user's row (the
database cascade removes their messages and edges), commit, log out, and
redirect to the signup page. -/
def delete_user (s : AppState) (csrfValid : Bool) : HandlerResult :=
  match currentUser s with
  | none => ⟨s, .redirect "/", [accessUnauthorizedFlash]⟩
  | some user =>
    if csrfValid = false then
      ⟨s, .redirect "/", [accessUnauthorizedFlash]⟩
    else
      ⟨{ db := deleteUserCascade s.db user.id, session := none },
        .redirect "/signup", []⟩

/-- `POST /messages/:id/delete`: `get_or_404` the message first; redirect
with a flash when there is no session user or the requester is not the
owner; then delete and commit when the CSRF form validates, and raise
`Unauthorized` when it does not. -/
def delete_message (s : AppState) (csrfValid : Bool) (message_id : Nat) :
    HandlerResult :=
  match getMessage s.db message_id with
  | none => ⟨s, .notFound, []⟩
  | some msg =>
    match currentUser s with
    | none => ⟨s, .redirect "/", [accessUnauthorizedFlash]⟩
    | some user =>
      if msg.userId ≠ user.id then
        ⟨s, .redirect "/", [accessUnauthorizedFlash]⟩
      else if csrfValid then
        ⟨{ s with db :=
              { s.db with messages := s.db.messages.eraseP (fun m => m.id == message_id) } },
          .redirect ("/users/" ++ toString user.id), []⟩
      else
        ⟨s, .raised "Unauthorized", []⟩

/-- `POST /message/:id/favorite`: guard, `get_or_404` the message, then
toggle: append the like edge when `msg not in g.user.liked_messages`,
remove it otherwise; redirect back to the submitted origin URL. -/
def handle_favorites (s : AppState) (csrfValid : Bool) (message_id : Nat)
    (origin_url : String) : HandlerResult :=
  match currentUser s with
  | none => ⟨s, .redirect "/", [accessUnauthorizedFlash]⟩
  | some user =>
    if csrfValid = false then
      ⟨s, .redirect "/", [accessUnauthorizedFlash]⟩
    else
      match getMessage s.db message_id with
      | none => ⟨s, .notFound, []⟩
      | some msg =>
        if (user.id, msg.id) ∉ s.db.likes then
          ⟨{ s with db := { s.db with likes := s.db.likes ++ [(user.id, msg.id)] } },
            .redirect origin_url, []⟩
        else
          ⟨{ s with db := { s.db with likes := s.db.likes.erase (user.id, msg.id) } },
            .redirect origin_url, []⟩

/-- The `following_ids` list built by the homepage handler: the ids of
everyone the user follows, plus the user's own id. -/
def followingIds (db : DBState) (user : User) : List Nat :=
  (db.follows.filter (fun e => e.1 == user.id)).map (fun e => e.2) ++ [user.id]

/-- The home-feed query of `GET /`: messages whose author is the current
user or anyone they follow, ordered by timestamp descending, limited to
100 rows. -/
def homepageFeed (db : DBState) (user : User) : List Message :=
  ((db.messages.filter (fun m => (followingIds db user).contains m.userId)).mergeSort
      (fun a b => b.timestamp ≤ a.timestamp)).take 100

/-- `GET /`: logged-in users get the home template over `homepageFeed`;
anonymous visitors get the anonymous home template. -/
def homepage (s : AppState) : HandlerResult :=
  match currentUser s with
  | some _ => ⟨s, .render "home.html", []⟩
  | none => ⟨s, .render "home-anon.html", []⟩

/-! Concrete states used by the witnesses and counterexamples. -/

/-- Example user 1. -/
def exUser1 : User := ⟨1, "u1", "u1@email.com"⟩

/-- Example user 2. -/
def exUser2 : User := ⟨2, "u2", "u2@email.com"⟩

/-- Example message authored by user 1. -/
def exMsg1 : Message := ⟨10, 1, "m1-text", 5⟩

/-- Example message authored by user 2. -/
def exMsg2 : Message := ⟨11, 2, "m2-text", 7⟩

/-- Two users, two messages, user 1 follows user 2; user 1 logged in. -/
def exState : AppState :=
  ⟨⟨[exUser1, exUser2], [exMsg1, exMsg2], [(1, 2)], []⟩, some 1⟩

/-- Like `exState` but with no follow edges. -/
def exStateNoFollow : AppState :=
  ⟨⟨[exUser1, exUser2], [exMsg1, exMsg2], [], []⟩, some 1⟩

/-! Theorems. -/

/-- C2: a signup whose username or email duplicates an existing user's fails:
the database is unchanged (so the original account is intact), the session
identifies no user, and the signup form is re-rendered with the
"Username already taken" error notice. -/
theorem signup_duplicate_rejected (s : AppState) (form : SignupForm) (newId : Nat)
    (hvalid : form.valid = true)
    (u : User) (hu : u ∈ s.db.users)
    (hdup : u.username = form.username ∨ u.email = form.email) :
    (signup s form newId).state.db = s.db ∧
    (signup s form newId).state.session = none ∧
    (signup s form newId).response = Response.render "users/signup.html" ∧
    ("Username already taken", "danger") ∈ (signup s form newId).flashes := by
  have hany : s.db.users.any
      (fun v => v.username == form.username || v.email == form.email) = true := by
    rw [List.any_eq_true]
    exact ⟨u, hu, by simpa using hdup⟩
  simp [signup, hvalid, signupCommit, do_logout, hany]

/-- Witness for `signup_duplicate_rejected`: signing up as the already-taken
username "u1" against `exState`. -/
theorem signup_duplicate_rejected_witness :
    (true = true) ∧ exUser1 ∈ exState.db.users ∧
    (exUser1.username = "u1" ∨ exUser1.email = "new@email.com") ∧
    ((signup exState ⟨true, "u1", "new@email.com"⟩ 3).state.db = exState.db ∧
     (signup exState ⟨true, "u1", "new@email.com"⟩ 3).state.session = none ∧
     (signup exState ⟨true, "u1", "new@email.com"⟩ 3).response
        = Response.render "users/signup.html" ∧
     ("Username already taken", "danger")
        ∈ (signup exState ⟨true, "u1", "new@email.com"⟩ 3).flashes) :=
  ⟨rfl, by decide, Or.inl rfl,
    signup_duplicate_rejected exState ⟨true, "u1", "new@email.com"⟩ 3 rfl
      exUser1 (by decide) (Or.inl rfl)⟩

/-- C10: every `/signup` request logs out first; afterwards the session
identifies either no user or the newly created user (whose fresh primary key
no existing row carries). In particular an invalid form (e.g. a GET) leaves
the session cleared. -/
theorem signup_session_after (s : AppState) (form : SignupForm) (newId : Nat)
    (hfresh : ∀ u ∈ s.db.users, u.id ≠ newId) :
    (form.valid = false → (signup s form newId).state.session = none) ∧
    ((signup s form newId).state.session = none ∨
     ((signup s form newId).state.session = some newId ∧
      getUser (signup s form newId).state.db newId
        = some ⟨newId, form.username, form.email⟩)) := by
  by_cases hv : form.valid = true
  · refine ⟨fun hc => absurd hv (by rw [hc]; exact Bool.false_ne_true), ?_⟩
    by_cases hdup : s.db.users.any
        (fun u => u.username == form.username || u.email == form.email) = true
    · left
      simp [signup, hv, signupCommit, hdup, do_logout]
    · right
      have hnone : s.db.users.find? (fun u => u.id == newId) = none := by
        rw [List.find?_eq_none]
        intro u hu
        simpa using hfresh u hu
      simp [signup, hv, signupCommit, hdup, do_logout, do_login, getUser, hnone]
  · refine ⟨fun _ => ?_, Or.inl ?_⟩ <;> simp [signup, hv, do_logout]

/-- Witness for `signup_session_after`: a fresh signup against `exState`. -/
theorem signup_session_after_witness :
    (∀ u ∈ exState.db.users, u.id ≠ 3) ∧
    (((⟨true, "u9", "u9@email.com"⟩ : SignupForm).valid = false →
        (signup exState ⟨true, "u9", "u9@email.com"⟩ 3).state.session = none) ∧
     ((signup exState ⟨true, "u9", "u9@email.com"⟩ 3).state.session = none ∨
      ((signup exState ⟨true, "u9", "u9@email.com"⟩ 3).state.session = some 3 ∧
       getUser (signup exState ⟨true, "u9", "u9@email.com"⟩ 3).state.db 3
          = some ⟨3, "u9", "u9@email.com"⟩))) :=
  ⟨by decide, signup_session_after exState ⟨true, "u9", "u9@email.com"⟩ 3 (by decide)⟩

/-- C3 counterexample: with user 1 logged in, user 2 existing and no follow
edge from 1 to 2, the unfollow request raises a `ValueError` instead of
completing without error, so it is not a no-op as claimed. -/
theorem stop_following_not_noop_counterexample :
    (stop_following exStateNoFollow true 2).response = Response.raised "ValueError" ∧
    (stop_following exStateNoFollow true 2).response
      ≠ Response.redirect "/users/1/following" ∧
    (stop_following exStateNoFollow true 2).state = exStateNoFollow := by decide

/-- C3 (amended): unfollowing an existing user the current user does not
follow leaves the whole state unchanged but raises a `ValueError` (the list
removal of an absent element), rather than completing without error. -/
theorem stop_following_missing_edge_raises (s : AppState) (user followed : User)
    (fid : Nat)
    (hu : currentUser s = some user)
    (hf : getUser s.db fid = some followed)
    (hnot : (user.id, followed.id) ∉ s.db.follows) :
    (stop_following s true fid).state = s ∧
    (stop_following s true fid).response = Response.raised "ValueError" := by
  simp [stop_following, hu, hf, hnot]

/-- Witness for `stop_following_missing_edge_raises`: user 1 unfollowing
user 2 in `exStateNoFollow`. -/
theorem stop_following_missing_edge_raises_witness :
    currentUser exStateNoFollow = some exUser1 ∧
    getUser exStateNoFollow.db 2 = some exUser2 ∧
    (exUser1.id, exUser2.id) ∉ exStateNoFollow.db.follows ∧
    ((stop_following exStateNoFollow true 2).state = exStateNoFollow ∧
     (stop_following exStateNoFollow true 2).response = Response.raised "ValueError") :=
  ⟨by decide, by decide, by decide,
    stop_following_missing_edge_raises exStateNoFollow exUser1 exUser2 2
      (by decide) (by decide) (by decide)⟩

/-- C4 counterexample: user 1 already follows user 2 in `exState`, yet a
second follow request appends a second (1, 2) edge — the ordered pair then
appears twice, violating the claimed at-most-once invariant, because the
handler performs no membership check. -/
theorem start_following_duplicate_counterexample :
    (1, 2) ∈ exState.db.follows ∧
    (start_following exState true 2).state.db.follows = [(1, 2), (1, 2)] ∧
    ((start_following exState true 2).state.db.follows).count (1, 2) = 2 := by decide

/-- C4 (amended): `start_following` checks only for self-follows; for any
other existing target it appends the (follower, followed) pair with no
membership check, so following an already-followed user duplicates the
edge in the collection. -/
theorem start_following_no_membership_check (s : AppState) (user followed : User)
    (fid : Nat)
    (hu : currentUser s = some user)
    (hf : getUser s.db fid = some followed)
    (hne : followed ≠ user) :
    (start_following s true fid).state.db.follows
      = s.db.follows ++ [(user.id, followed.id)] := by
  simp [start_following, hu, hf, hne]

/-- Witness for `start_following_no_membership_check`: user 1 re-following
the already-followed user 2 in `exState`. -/
theorem start_following_no_membership_check_witness :
    currentUser exState = some exUser1 ∧
    getUser exState.db 2 = some exUser2 ∧
    exUser2 ≠ exUser1 ∧
    (start_following exState true 2).state.db.follows
      = exState.db.follows ++ [(exUser1.id, exUser2.id)] :=
  ⟨by decide, by decide, by decide,
    start_following_no_membership_check exState exUser1 exUser2 2
      (by decide) (by decide) (by decide)⟩

/-- C9 counterexample: with user 1 logged in and no user of id 99,
`GET /users/99/likes` renders the liked-warbles template instead of
answering not-found, because the handler fetches with a plain
`User.query.get` and renders unconditionally. -/
theorem show_favorite_warbles_unknown_counterexample :
    getUser exState.db 99 = none ∧
    (show_favorite_warbles exState 99).response
      = Response.render "users/liked_warbles.html" ∧
    (show_favorite_warbles exState 99).response ≠ Response.notFound := by decide

/-- C9 (amended): routes that fetch with `get_or_404` answer an unknown id
with not-found (e.g. `GET /users/:id`), but `GET /users/:id/likes` fetches
with a plain `get` and renders its template even when no such user exists. -/
theorem unknown_user_id_responses (s : AppState) (user : User) (uid : Nat)
    (hu : currentUser s = some user)
    (hmissing : getUser s.db uid = none) :
    (show_user s uid).response = Response.notFound ∧
    (show_favorite_warbles s uid).response
      = Response.render "users/liked_warbles.html" := by
  simp [show_user, show_favorite_warbles, hu, hmissing]

/-- Witness for `unknown_user_id_responses`: id 99 matches no user in
`exState`. -/
theorem unknown_user_id_responses_witness :
    currentUser exState = some exUser1 ∧
    getUser exState.db 99 = none ∧
    ((show_user exState 99).response = Response.notFound ∧
     (show_favorite_warbles exState 99).response
        = Response.render "users/liked_warbles.html") :=
  ⟨by decide, by decide,
    unknown_user_id_responses exState exUser1 99 (by decide) (by decide)⟩

/-- A user found by primary key carries that key as its id. -/
theorem getUser_id (db : DBState) (uid : Nat) (user : User)
    (h : getUser db uid = some user) : user.id = uid := by
  have h' : db.users.find? (fun u => u.id == uid) = some user := h
  simpa using List.find?_some h'

/-- Unfolding `currentUser`: a resolved current user is stored in the session
under its own id and is found in the users table by that id. -/
theorem currentUser_eq_some (s : AppState) (user : User)
    (h : currentUser s = some user) :
    s.session = some user.id ∧ getUser s.db user.id = some user := by
  unfold currentUser at h
  cases hs : s.session with
  | none => rw [hs] at h; cases h
  | some uid =>
    rw [hs] at h
    have hid := getUser_id s.db uid user h
    exact ⟨by rw [hid], by rw [hid]; exact h⟩

/-- C6 counterexample: user 1 owns message 10 and is logged in, but submits
an invalid anti-forgery token: the handler raises an `Unauthorized`
exception with no flash, instead of answering with a redirect and a flashed
warning as claimed. -/
theorem delete_message_csrf_counterexample :
    (delete_message exState false 10).response = Response.raised "Unauthorized" ∧
    (delete_message exState false 10).state = exState ∧
    (delete_message exState false 10).flashes = [] := by decide

/-- C6 (amended): the message is deleted exactly when the requester is its
owner and the anti-forgery token validates; anonymous and non-owner requests
are answered by a redirect with a flashed warning and leave the message in
place; an owner request with an invalid token leaves the message in place
but raises an `Unauthorized` exception surfaced to the caller. -/
theorem delete_message_authorization (s : AppState) (msg : Message) (mid : Nat)
    (csrf : Bool)
    (hm : getMessage s.db mid = some msg) :
    (∀ user, currentUser s = some user → msg.userId = user.id → csrf = true →
        (delete_message s csrf mid).state.db.messages
          = s.db.messages.eraseP (fun m => m.id == mid) ∧
        (delete_message s csrf mid).response
          = Response.redirect ("/users/" ++ toString user.id)) ∧
    (currentUser s = none →
        (delete_message s csrf mid).state = s ∧
        (delete_message s csrf mid).response = Response.redirect "/" ∧
        accessUnauthorizedFlash ∈ (delete_message s csrf mid).flashes) ∧
    (∀ user, currentUser s = some user → msg.userId ≠ user.id →
        (delete_message s csrf mid).state = s ∧
        (delete_message s csrf mid).response = Response.redirect "/" ∧
        accessUnauthorizedFlash ∈ (delete_message s csrf mid).flashes) ∧
    (∀ user, currentUser s = some user → msg.userId = user.id → csrf = false →
        (delete_message s csrf mid).state = s ∧
        (delete_message s csrf mid).response = Response.raised "Unauthorized") := by
  refine ⟨?_, ?_, ?_, ?_⟩
  · intro user hu hown hcsrf
    subst hcsrf
    simp [delete_message, hm, hu, hown]
  · intro hu
    simp [delete_message, hm, hu]
  · intro user hu hown
    simp [delete_message, hm, hu, hown]
  · intro user hu hown hcsrf
    subst hcsrf
    simp [delete_message, hm, hu, hown]

/-- Witness for `delete_message_authorization`: message 10 in `exState`. -/
theorem delete_message_authorization_witness :
    getMessage exState.db 10 = some exMsg1 ∧
    ((∀ user, currentUser exState = some user → exMsg1.userId = user.id → true = true →
        (delete_message exState true 10).state.db.messages
          = exState.db.messages.eraseP (fun m => m.id == 10) ∧
        (delete_message exState true 10).response
          = Response.redirect ("/users/" ++ toString user.id)) ∧
     (currentUser exState = none →
        (delete_message exState true 10).state = exState ∧
        (delete_message exState true 10).response = Response.redirect "/" ∧
        accessUnauthorizedFlash ∈ (delete_message exState true 10).flashes) ∧
     (∀ user, currentUser exState = some user → exMsg1.userId ≠ user.id →
        (delete_message exState true 10).state = exState ∧
        (delete_message exState true 10).response = Response.redirect "/" ∧
        accessUnauthorizedFlash ∈ (delete_message exState true 10).flashes) ∧
     (∀ user, currentUser exState = some user → exMsg1.userId = user.id → true = false →
        (delete_message exState true 10).state = exState ∧
        (delete_message exState true 10).response = Response.raised "Unauthorized")) :=
  ⟨by decide, delete_message_authorization exState exMsg1 10 true (by decide)⟩

/-- C7: deleting the account removes the user's row, cascades away every
message they authored and every follow or like edge they participate in,
clears the session, and redirects to the signup page. -/
theorem delete_user_cascades (s : AppState) (user : User)
    (hu : currentUser s = some user) :
    (∀ u ∈ (delete_user s true).state.db.users, u.id ≠ user.id) ∧
    (∀ m ∈ (delete_user s true).state.db.messages, m.userId ≠ user.id) ∧
    (∀ e ∈ (delete_user s true).state.db.follows, e.1 ≠ user.id ∧ e.2 ≠ user.id) ∧
    (∀ e ∈ (delete_user s true).state.db.likes, e.1 ≠ user.id) ∧
    (delete_user s true).state.session = none ∧
    (delete_user s true).response = Response.redirect "/signup" := by
  simp only [delete_user, hu]
  refine ⟨?_, ?_, ?_, ?_, rfl, rfl⟩ <;>
    · intro x hx
      simp [deleteUserCascade, List.mem_filter] at hx
      tauto

/-- Witness for `delete_user_cascades`: user 1 deleting their account in
`exState`. -/
theorem delete_user_cascades_witness :
    currentUser exState = some exUser1 ∧
    ((∀ u ∈ (delete_user exState true).state.db.users, u.id ≠ exUser1.id) ∧
     (∀ m ∈ (delete_user exState true).state.db.messages, m.userId ≠ exUser1.id) ∧
     (∀ e ∈ (delete_user exState true).state.db.follows,
        e.1 ≠ exUser1.id ∧ e.2 ≠ exUser1.id) ∧
     (∀ e ∈ (delete_user exState true).state.db.likes, e.1 ≠ exUser1.id) ∧
     (delete_user exState true).state.session = none ∧
     (delete_user exState true).response = Response.redirect "/signup") :=
  ⟨by decide, delete_user_cascades exState exUser1 (by decide)⟩

/-- `start_following` never creates a self-follow edge: the only appended
edge pairs the current user with a target that resolved to a different row,
and two lookups by the same id resolve to the same row. -/
theorem start_following_preserves_no_self (s : AppState) (csrf : Bool) (fid : Nat)
    (hno : ∀ x : Nat, (x, x) ∉ s.db.follows) :
    ∀ x : Nat, (x, x) ∉ (start_following s csrf fid).state.db.follows := by
  intro x
  cases hcu : currentUser s with
  | none => simpa [start_following, hcu] using hno x
  | some user =>
    cases csrf with
    | false => simpa [start_following, hcu] using hno x
    | true =>
      cases hfu : getUser s.db fid with
      | none => simpa [start_following, hcu, hfu] using hno x
      | some followed =>
        by_cases heq : followed = user
        · simpa [start_following, hcu, hfu, heq] using hno x
        · simp only [start_following, hcu, hfu]
          simp [heq]
          refine ⟨hno x, fun hx1 hx2 => ?_⟩
          have hidf : followed.id = fid := getUser_id s.db fid followed hfu
          have hgu : getUser s.db user.id = some user :=
            (currentUser_eq_some s user hcu).2
          have hfid : fid = user.id := by rw [← hidf, ← hx2, hx1]
          rw [hfid, hgu] at hfu
          exact heq (Option.some.inj hfu).symm

/-- C8: a follow request targeting the current user's own id is rejected with
the "You can not follow yourself." flash and leaves the state unchanged, and
no sequence of follow requests ever creates a self-follow edge. -/
theorem start_following_self_rejected (s : AppState) (user : User)
    (hu : currentUser s = some user) :
    (start_following s true user.id).state = s ∧
    (start_following s true user.id).response = Response.redirect "/users" ∧
    ("You can not follow yourself.", "danger")
      ∈ (start_following s true user.id).flashes ∧
    (∀ csrf fid, (∀ x : Nat, (x, x) ∉ s.db.follows) →
        ∀ x : Nat, (x, x) ∉ (start_following s csrf fid).state.db.follows) := by
  have hget : getUser s.db user.id = some user := (currentUser_eq_some s user hu).2
  refine ⟨?_, ?_, ?_, fun csrf fid hno => start_following_preserves_no_self s csrf fid hno⟩
  all_goals simp [start_following, hu, hget]

/-- Witness for `start_following_self_rejected`: user 1 trying to follow
themselves in `exState`. -/
theorem start_following_self_rejected_witness :
    currentUser exState = some exUser1 ∧
    ((start_following exState true exUser1.id).state = exState ∧
     (start_following exState true exUser1.id).response = Response.redirect "/users" ∧
     ("You can not follow yourself.", "danger")
        ∈ (start_following exState true exUser1.id).flashes ∧
     (∀ csrf fid, (∀ x : Nat, (x, x) ∉ exState.db.follows) →
        ∀ x : Nat, (x, x) ∉ (start_following exState csrf fid).state.db.follows)) :=
  ⟨by decide, start_following_self_rejected exState exUser1 (by decide)⟩

/-- C5: the favorite toggle appends the like edge when it is absent; when it
is present (the like table, keyed on the pair, holds no duplicates) it
removes it; and from the un-favorited state two applications in a row
restore the original state exactly. -/
theorem handle_favorites_toggle (s : AppState) (user : User) (msg : Message)
    (mid : Nat) (url : String)
    (hu : currentUser s = some user)
    (hm : getMessage s.db mid = some msg) :
    ((user.id, msg.id) ∉ s.db.likes →
        (handle_favorites s true mid url).state.db.likes
          = s.db.likes ++ [(user.id, msg.id)] ∧
        (user.id, msg.id) ∈ (handle_favorites s true mid url).state.db.likes) ∧
    ((user.id, msg.id) ∈ s.db.likes → s.db.likes.Nodup →
        (handle_favorites s true mid url).state.db.likes
          = s.db.likes.erase (user.id, msg.id) ∧
        (user.id, msg.id) ∉ (handle_favorites s true mid url).state.db.likes) ∧
    ((user.id, msg.id) ∉ s.db.likes →
        (handle_favorites (handle_favorites s true mid url).state true mid url).state
          = s) := by
  refine ⟨?_, ?_, ?_⟩
  · intro hnot
    simp [handle_favorites, hu, hm, hnot]
  · intro hmem hnodup
    refine ⟨by simp [handle_favorites, hu, hm, hmem], ?_⟩
    have : (handle_favorites s true mid url).state.db.likes
        = s.db.likes.erase (user.id, msg.id) := by
      simp [handle_favorites, hu, hm, hmem]
    rw [this]
    exact hnodup.not_mem_erase
  · intro hnot
    have h1 : (handle_favorites s true mid url).state
        = { s with db := { s.db with likes := s.db.likes ++ [(user.id, msg.id)] } } := by
      simp [handle_favorites, hu, hm, hnot]
    rw [h1]
    have hu2 : currentUser
        { s with db := { s.db with likes := s.db.likes ++ [(user.id, msg.id)] } }
        = some user := hu
    have hm2 : getMessage { s.db with likes := s.db.likes ++ [(user.id, msg.id)] } mid
        = some msg := hm
    have hmem2 : (user.id, msg.id) ∈ s.db.likes ++ [(user.id, msg.id)] := by simp
    simp [handle_favorites, hu2, hm2, hmem2, List.erase_append_right _ hnot]

/-- Witness for `handle_favorites_toggle`: user 1 toggling message 11 in
`exState`, where it is not yet liked. -/
theorem handle_favorites_toggle_witness :
    currentUser exState = some exUser1 ∧
    getMessage exState.db 11 = some exMsg2 ∧
    (((exUser1.id, exMsg2.id) ∉ exState.db.likes →
        (handle_favorites exState true 11 "/").state.db.likes
          = exState.db.likes ++ [(exUser1.id, exMsg2.id)] ∧
        (exUser1.id, exMsg2.id)
          ∈ (handle_favorites exState true 11 "/").state.db.likes) ∧
     ((exUser1.id, exMsg2.id) ∈ exState.db.likes → exState.db.likes.Nodup →
        (handle_favorites exState true 11 "/").state.db.likes
          = exState.db.likes.erase (exUser1.id, exMsg2.id) ∧
        (exUser1.id, exMsg2.id)
          ∉ (handle_favorites exState true 11 "/").state.db.likes) ∧
     ((exUser1.id, exMsg2.id) ∉ exState.db.likes →
        (handle_favorites (handle_favorites exState true 11 "/").state true 11 "/").state
          = exState)) :=
  ⟨by decide, by decide,
    handle_favorites_toggle exState exUser1 exMsg2 11 "/" (by decide) (by decide)⟩

/-- Membership in the homepage handler's `following_ids` list means being
the user themselves or the target of one of their follow edges. -/
theorem mem_followingIds (db : DBState) (user : User) (x : Nat)
    (h : x ∈ followingIds db user) :
    x = user.id ∨ (user.id, x) ∈ db.follows := by
  unfold followingIds at h
  rcases List.mem_append.mp h with h1 | h2
  · right
    obtain ⟨e, he, hex⟩ := List.mem_map.mp h1
    obtain ⟨hef, heq⟩ := List.mem_filter.mp he
    have h1' : e.1 = user.id := by simpa using heq
    have hpair : (user.id, x) = e := by
      cases e
      simp only [Prod.mk.injEq]
      simp at h1' hex
      exact ⟨h1'.symm, hex.symm⟩
    rw [hpair]
    exact hef
  · left
    simpa using h2

/-- C1: for a logged-in user the homepage renders the home template, and the
home feed contains only messages authored by that user or by someone they
follow, is ordered newest-first by timestamp, and has at most 100 entries. -/
theorem homepage_feed_correct (s : AppState) (user : User)
    (hu : currentUser s = some user) :
    (homepage s).response = Response.render "home.html" ∧
    (∀ m ∈ homepageFeed s.db user,
        m.userId = user.id ∨ (user.id, m.userId) ∈ s.db.follows) ∧
    (homepageFeed s.db user).Pairwise (fun a b => b.timestamp ≤ a.timestamp) ∧
    (homepageFeed s.db user).length ≤ 100 := by
  refine ⟨by simp [homepage, hu], ?_, ?_, List.length_take_le _ _⟩
  · intro m hm
    unfold homepageFeed at hm
    have hm1 := List.mem_of_mem_take hm
    rw [List.mem_mergeSort] at hm1
    obtain ⟨-, hpred⟩ := List.mem_filter.mp hm1
    have hmem : m.userId ∈ followingIds s.db user := by simpa using hpred
    exact mem_followingIds s.db user m.userId hmem
  · unfold homepageFeed
    have hs : ((s.db.messages.filter
          (fun m => (followingIds s.db user).contains m.userId)).mergeSort
          (fun a b => b.timestamp ≤ a.timestamp)).Pairwise
        (fun a b => decide (b.timestamp ≤ a.timestamp) = true) :=
      List.sorted_mergeSort
        (fun a b c h1 h2 => by simp at h1 h2 ⊢; omega)
        (fun a b => by simp [Bool.or_eq_true]; omega) _
    exact (List.Pairwise.sublist (List.take_sublist _ _) hs).imp
      (fun h => by simpa using h)

/-- Witness for `homepage_feed_correct`: user 1 logged in in `exState`. -/
theorem homepage_feed_correct_witness :
    currentUser exState = some exUser1 ∧
    ((homepage exState).response = Response.render "home.html" ∧
     (∀ m ∈ homepageFeed exState.db exUser1,
        m.userId = exUser1.id ∨ (exUser1.id, m.userId) ∈ exState.db.follows) ∧
     (homepageFeed exState.db exUser1).Pairwise
        (fun a b => b.timestamp ≤ a.timestamp) ∧
     (homepageFeed exState.db exUser1).length ≤ 100) :=
  ⟨by decide, homepage_feed_correct exState exUser1 (by decide)⟩

end Warbler
